import Mathlib

/-!
Shallow embedding of the storyteller repository core
(`src/storyteller/core/story.py`, `src/storyteller/core/persistence.py`,
`src/storyteller/generation/image.py`, `src/storyteller/generation/prompts.py`)
together with theorems settling the specification claims about it.

Conventions used throughout:
* Python `datetime` values are abstract ticks (`Nat`); every operation that
  calls `datetime.now()` in Python takes the current tick as an explicit
  `now` argument.
* `pathlib.Path` is modelled as a root flag plus the list of components
  after the root; `Path.name` is the last component, or the empty string
  when there is none (as for `Path("/")` in Python).
* Python exceptions raised by an operation are modelled with
  `Except String`; dataclass `**kwargs` updates are modelled with records
  of `Option`-valued fields (a `none` field means "keyword absent").
-/

namespace Storyteller

/-- Python `datetime`, abstracted to a tick count. -/
abbrev DateTime := Nat

/-- `pathlib.Path`: whether the path is absolute, and its components after
the root.  `Path("/")` is `⟨true, []⟩`; `Path("/etc/passwd.png")` is
`⟨true, ["etc", "passwd.png"]⟩`. -/
structure PyPath where
  isAbsolute : Bool
  parts : List String
deriving Repr, DecidableEq

/-- `Path.name` in `pathlib`: the final component, or `""` when the path is
only a root (or empty). -/
def PyPath.name (p : PyPath) : String :=
  p.parts.getLast?.getD ""

/-- `Path.__truediv__` with a single plain component. -/
def PyPath.join (p : PyPath) (s : String) : PyPath :=
  { p with parts := p.parts ++ [s] }

/-! ## `generation/image.py`: `ImageConfig` -/

/-- The field values of an `ImageConfig` dataclass instance
(`image.py` lines 25-43). -/
structure ImageConfig where
  model : String
  quantize : Int
  steps : Int
  width : Int
  height : Int
  seed : Option Int
deriving Repr, DecidableEq

/-- `ImageConfig.__post_init__` validation followed by construction
(`image.py` lines 45-54).  Python raises `ValueError` with messages
f-formatted from the offending value; the apostrophes that quote the
literals `schnell` and `dev` inside the Python messages are dropped here. -/
def mkImageConfig (model : String) (quantize steps width height : Int)
    (seed : Option Int) : Except String ImageConfig :=
  if ¬ (model = "schnell" ∨ model = "dev") then
    Except.error s!"Invalid model: {model}. Must be schnell or dev."
  else if ¬ (quantize = 4 ∨ quantize = 8) then
    Except.error s!"Invalid quantize: {quantize}. Must be 4 or 8."
  else if model = "schnell" ∧ ¬ (2 ≤ steps ∧ steps ≤ 8) then
    Except.error s!"Invalid steps for schnell: {steps}. Must be 2-8."
  else if model = "dev" ∧ ¬ (15 ≤ steps ∧ steps ≤ 30) then
    Except.error s!"Invalid steps for dev: {steps}. Must be 15-30."
  else
    Except.ok ⟨model, quantize, steps, width, height, seed⟩

/-- The default `ImageConfig()` (all dataclass defaults). -/
def defaultImageConfig : ImageConfig :=
  ⟨"schnell", 4, 4, 1024, 1024, none⟩

/-! ## `generation/image.py`: `ImageGenerator.generate`

`generate` is modelled as a sequential function over the mutable state
of the generator and an environment fixing the outcome of the external
checks, of model loading, and of the two points at which a concurrent
`cancel()` call can land between the flag reset at the top of `generate`
and the flag checks inside it.  Timing fields (`generation_time`) and the
progress callbacks are not modelled; no claim mentions them. -/

/-- Mutable state of an `ImageGenerator` instance
(`image.py` lines 165-174): the configuration, whether `_flux_model` is
loaded, and the `_cancel_requested` flag. -/
structure GeneratorState where
  config : ImageConfig
  fluxModelLoaded : Bool
  cancelRequested : Bool
deriving Repr, DecidableEq

/-- `ImageGenerator.cancel` (`image.py` lines 377-384): sets the flag. -/
def ImageGenerator.cancel (g : GeneratorState) : GeneratorState :=
  { g with cancelRequested := true }

/-- Environment for one `generate` call: results of the platform and mflux
checks, whether `_load_model` would succeed, and whether a concurrent
`cancel()` lands (a) between the flag reset at line 255 and the flag check
at line 274, or (b) during the backend `generate_image` call (before the
check at line 338). -/
structure GenEnv where
  platformOk : Bool
  platformMsg : String
  mfluxOk : Bool
  mfluxMsg : String
  loadOk : Bool
  loadErr : String
  cancelBeforeCheck : Bool
  cancelDuringBackend : Bool
deriving Repr, DecidableEq

/-- `GenerationResult` (`image.py` lines 71-87), minus the unmodelled
`generation_time` field. -/
structure GenerationResult where
  success : Bool
  imagePath : Option PyPath
  error : Option String
  seedUsed : Option Int
deriving Repr, DecidableEq

/-- Observable outcome of one `generate` call: the returned result,
whether the backend `self._flux_model.generate_image` was invoked, which
path (if any) `image.save` wrote to, and the final generator state. -/
structure GenOutcome where
  result : GenerationResult
  backendInvoked : Bool
  savedPath : Option PyPath
  finalState : GeneratorState
deriving Repr, DecidableEq

/-- `ImageGenerator._generate_image` (`image.py` lines 288-375), reached
only with the model loaded.  `seedTime` is the value
`int(time.time() * 1000)` would produce. -/
def generateImageInner (g : GeneratorState) (env : GenEnv) (prompt : String)
    (outputPath : PyPath) (seedTime : Int) : GenOutcome :=
  let seed := g.config.seed.getD (seedTime % 2147483647)
  let g := if env.cancelDuringBackend then ImageGenerator.cancel g else g
  if g.cancelRequested then
    { result := ⟨false, none, some "Generation cancelled", none⟩
      backendInvoked := true
      savedPath := none
      finalState := g }
  else
    { result := ⟨true, some outputPath, none, some seed⟩
      backendInvoked := true
      savedPath := some outputPath
      finalState := g }

/-- `ImageGenerator.generate` (`image.py` lines 236-286): resets the
cancellation flag, runs the platform and mflux checks, loads the model if
needed, honours a cancellation that arrived since the reset, then calls
`_generate_image`.  The source performs no validation of `output_path`. -/
def ImageGenerator.generate (g : GeneratorState) (env : GenEnv) (prompt : String)
    (outputPath : PyPath) (seedTime : Int) : GenOutcome :=
  let g := { g with cancelRequested := false }
  if ¬ env.platformOk then
    { result := ⟨false, none, some env.platformMsg, none⟩
      backendInvoked := false, savedPath := none, finalState := g }
  else if ¬ env.mfluxOk then
    { result := ⟨false, none, some env.mfluxMsg, none⟩
      backendInvoked := false, savedPath := none, finalState := g }
  else if ¬ g.fluxModelLoaded ∧ ¬ env.loadOk then
    let le := env.loadErr
    { result := ⟨false, none, some s!"Failed to load MFLUX model: {le}", none⟩
      backendInvoked := false, savedPath := none, finalState := g }
  else
    let g := { g with fluxModelLoaded := true }
    let g := if env.cancelBeforeCheck then ImageGenerator.cancel g else g
    if g.cancelRequested then
      { result := ⟨false, none, some "Generation cancelled", none⟩
        backendInvoked := false, savedPath := none, finalState := g }
    else
      generateImageInner g env prompt outputPath seedTime

/-! ## `core/story.py`: entity model -/

/-- `ConversationMessage` (`story.py` lines 16-29). -/
structure ConversationMessage where
  role : String
  content : String
  timestamp : DateTime
deriving Repr, DecidableEq

/-- `Character` (`story.py` lines 32-45); `visual_traits` is a Python
tuple of strings, modelled as a list. -/
structure Character where
  name : String
  description : String
  visual_traits : List String
deriving Repr, DecidableEq

/-- `Page` (`story.py` lines 89-104). -/
structure Page where
  page_number : Int
  text : String
  illustration_prompt : String
  illustration_path : Option PyPath
deriving Repr, DecidableEq

/-- The `**kwargs` accepted by `Page.with_updates`; a `none` field means
the keyword was not passed. -/
structure PageUpdates where
  page_number : Option Int := none
  text : Option String := none
  illustration_prompt : Option String := none
  illustration_path : Option (Option PyPath) := none
deriving Repr, DecidableEq

/-- `Page.with_updates` (`story.py` lines 106-116): `dataclasses.replace`
with the given keywords. -/
def Page.with_updates (p : Page) (u : PageUpdates) : Page :=
  { page_number := u.page_number.getD p.page_number
    text := u.text.getD p.text
    illustration_prompt := u.illustration_prompt.getD p.illustration_prompt
    illustration_path := u.illustration_path.getD p.illustration_path }

/-- `StoryMetadata` (`story.py` lines 128-147). -/
structure StoryMetadata where
  title : String
  author : String
  target_age : String
  created_at : DateTime
  modified_at : DateTime
  style : String
deriving Repr, DecidableEq

/-- The `**kwargs` accepted by `StoryMetadata.with_updates`. -/
structure MetadataUpdates where
  title : Option String := none
  author : Option String := none
  target_age : Option String := none
  created_at : Option DateTime := none
  modified_at : Option DateTime := none
  style : Option String := none
deriving Repr, DecidableEq

/-- `StoryMetadata.with_updates` (`story.py` lines 149-163): if
`modified_at` is not among the keywords it is set to `datetime.now()`
(the `now` argument), then `dataclasses.replace`. -/
def StoryMetadata.with_updates (m : StoryMetadata) (u : MetadataUpdates)
    (now : DateTime) : StoryMetadata :=
  { title := u.title.getD m.title
    author := u.author.getD m.author
    target_age := u.target_age.getD m.target_age
    created_at := u.created_at.getD m.created_at
    modified_at := u.modified_at.getD now
    style := u.style.getD m.style }

/-- `ILLUSTRATION_STYLES` (`story.py` lines 166-173). -/
def ILLUSTRATION_STYLES : List String :=
  ["watercolor", "cartoon", "storybook_classic", "modern_digital", "pencil_sketch"]

/-- `TARGET_AGE_RANGES` (`story.py` lines 175-180). -/
def TARGET_AGE_RANGES : List String :=
  ["2-5", "5-8", "6-10"]

/-- `Story` (`story.py` lines 183-200). -/
structure Story where
  metadata : StoryMetadata
  characters : List Character
  pages : List Page
  conversation : List ConversationMessage
  project_path : Option PyPath
deriving Repr, DecidableEq

/-- `Story.with_metadata` (`story.py` lines 243-253). -/
def Story.with_metadata (s : Story) (u : MetadataUpdates) (now : DateTime) : Story :=
  { s with metadata := s.metadata.with_updates u now }

/-- `create_story` (`story.py` lines 268-292): new story with empty
characters, pages and conversation, no project path, and
`created_at = modified_at = now`. -/
def create_story (title : String) (author : String) (target_age : String)
    (style : String) (now : DateTime) : Story :=
  { metadata := ⟨title, author, target_age, now, now, style⟩
    characters := []
    pages := []
    conversation := []
    project_path := none }

/-- `add_character` (`story.py` lines 295-310). -/
def add_character (story : Story) (c : Character) (now : DateTime) : Story :=
  { story with
    characters := story.characters ++ [c]
    metadata := story.metadata.with_updates {} now }

/-- `remove_character` (`story.py` lines 313-330): keeps the characters
whose lower-cased name differs from the lower-cased argument. -/
def remove_character (story : Story) (name : String) (now : DateTime) : Story :=
  { story with
    characters := story.characters.filter
      (fun c => c.name.toLower ≠ name.toLower)
    metadata := story.metadata.with_updates {} now }

/-- The comparison `list.sort(key=lambda p: p.page_number)` sorts by. -/
def pageLE (a b : Page) : Bool :=
  a.page_number ≤ b.page_number

/-- `add_page` (`story.py` lines 333-354): appends the page and re-sorts
the list with the stable sort of Python, modelled by the stable `mergeSort`
keyed on `page_number`. -/
def add_page (story : Story) (page : Page) (now : DateTime) : Story :=
  { story with
    pages := (story.pages ++ [page]).mergeSort pageLE
    metadata := story.metadata.with_updates {} now }

/-- `update_page` (`story.py` lines 357-389): replaces the given fields of
every page whose number matches, raising `ValueError` when none does.  The
Python loop that builds `new_pages` while tracking `found` is modelled by
`map` plus `any`, which produce the same list and the same flag. -/
def update_page (story : Story) (page_number : Int) (u : PageUpdates)
    (now : DateTime) : Except String Story :=
  let new_pages := story.pages.map
    (fun p => if p.page_number = page_number then p.with_updates u else p)
  if story.pages.any (fun p => p.page_number == page_number) then
    Except.ok { story with
      pages := new_pages
      metadata := story.metadata.with_updates {} now }
  else
    Except.error s!"Page {page_number} not found in story"

/-- `remove_page` (`story.py` lines 392-410). -/
def remove_page (story : Story) (page_number : Int) (now : DateTime) : Story :=
  { story with
    pages := story.pages.filter (fun p => p.page_number ≠ page_number)
    metadata := story.metadata.with_updates {} now }

/-- `renumber_pages` (`story.py` lines 413-430): renumbers pages `1..N`
in current sequence order. -/
def renumber_pages (story : Story) (now : DateTime) : Story :=
  { story with
    pages := story.pages.enum.map
      (fun ip => { ip.2 with page_number := (ip.1 : Int) + 1 })
    metadata := story.metadata.with_updates {} now }

/-! ## `core/persistence.py`: JSON serialization

ISO-8601 encoding of timestamps is modelled as the identity on abstract
ticks: in Python `datetime.fromisoformat(dt.isoformat())` returns `dt`
exactly, so the dict fields keep the `DateTime` values themselves.  The
typed dict records below stand for the JSON objects; `Option`-valued
fields model JSON `null`. -/

/-- The dict produced by `_character_to_dict` (`persistence.py` 76-82). -/
structure CharacterDict where
  name : String
  description : String
  visual_traits : List String
deriving Repr, DecidableEq

/-- The dict produced by `_page_to_dict` (`persistence.py` 94-101):
`illustration_path` holds only the file base name, or `null`. -/
structure PageDict where
  page_number : Int
  text : String
  illustration_prompt : String
  illustration_path : Option String
deriving Repr, DecidableEq

/-- The dict produced by `_metadata_to_dict` (`persistence.py` 118-127). -/
structure MetadataDict where
  title : String
  author : String
  target_age : String
  created_at : DateTime
  modified_at : DateTime
  style : String
deriving Repr, DecidableEq

/-- The dict produced by `story_to_dict` (`persistence.py` 142-157). -/
structure StoryDict where
  version : String
  metadata : MetadataDict
  characters : List CharacterDict
  pages : List PageDict
deriving Repr, DecidableEq

/-- `_character_to_dict` (`persistence.py` 76-82). -/
def characterToDict (c : Character) : CharacterDict :=
  ⟨c.name, c.description, c.visual_traits⟩

/-- `_dict_to_character` (`persistence.py` 85-91). -/
def dictToCharacter (d : CharacterDict) : Character :=
  ⟨d.name, d.description, d.visual_traits⟩

/-- `_page_to_dict` (`persistence.py` 94-101): stores
`str(page.illustration_path.name)` when the path is set, else `null`. -/
def pageToDict (p : Page) : PageDict :=
  ⟨p.page_number, p.text, p.illustration_prompt,
    p.illustration_path.map PyPath.name⟩

/-- `_dict_to_page` (`persistence.py` 104-115): re-resolves the stored
base name under `pages_dir`; the Python guard
`if data.get("illustration_path") and pages_dir` treats both a missing or
`null` entry and an empty-string name as falsy. -/
def dictToPage (d : PageDict) (pagesDir : Option PyPath) : Page :=
  let illustration_path : Option PyPath :=
    match d.illustration_path, pagesDir with
    | some nm, some dir => if nm = "" then none else some (dir.join nm)
    | _, _ => none
  ⟨d.page_number, d.text, d.illustration_prompt, illustration_path⟩

/-- `_metadata_to_dict` (`persistence.py` 118-127). -/
def metadataToDict (m : StoryMetadata) : MetadataDict :=
  ⟨m.title, m.author, m.target_age, m.created_at, m.modified_at, m.style⟩

/-- `_dict_to_metadata` (`persistence.py` 130-139). -/
def dictToMetadata (d : MetadataDict) : StoryMetadata :=
  ⟨d.title, d.author, d.target_age, d.created_at, d.modified_at, d.style⟩

/-- `SCHEMA_VERSION` (`persistence.py` line 27). -/
def SCHEMA_VERSION : String := "1.0"

/-- `story_to_dict` (`persistence.py` 142-157).  The conversation is not
serialized. -/
def story_to_dict (s : Story) : StoryDict :=
  ⟨SCHEMA_VERSION, metadataToDict s.metadata,
    s.characters.map characterToDict, s.pages.map pageToDict⟩

/-- `dict_to_story` (`persistence.py` 160-181): pages resolve their
illustrations under `project_path / "pages"`; the loaded story has an
empty conversation. -/
def dict_to_story (d : StoryDict) (projectPath : Option PyPath) : Story :=
  let pagesDir := projectPath.map (fun p => p.join "pages")
  { metadata := dictToMetadata d.metadata
    characters := d.characters.map dictToCharacter
    pages := d.pages.map (fun p => dictToPage p pagesDir)
    conversation := []
    project_path := projectPath }

/-! ## `generation/prompts.py`: `calculate_story_structure` -/

/-- The dict returned by `calculate_story_structure`
(`prompts.py` 363-395). -/
structure StoryStructure where
  beginning_end : Int
  middle_start : Int
  middle_end : Int
  ending_start : Int
deriving Repr, DecidableEq

/-- `calculate_story_structure` (`prompts.py` 363-395).  In Python
`page_count // 4` is floor division; for the positive divisor 4 it agrees
with the Euclidean `Int` division of Lean used here. -/
def calculate_story_structure (page_count : Int) : StoryStructure :=
  if page_count ≤ 4 then
    ⟨1, 2, page_count - 1, page_count⟩
  else if page_count ≤ 8 then
    ⟨2, 3, page_count - 2, page_count - 1⟩
  else
    let beginning := page_count / 4
    let ending_start := page_count - page_count / 4 + 1
    ⟨beginning, beginning + 1, ending_start - 1, ending_start⟩

/-- The inclusive integer range `a..b` as a list (`a > b` gives `[]`). -/
def intRange (a b : Int) : List Int :=
  (List.range (b + 1 - a).toNat).map (fun i => a + Int.ofNat i)

/-- The pages covered by the three ranges of
`calculate_story_structure n`, in order: `1..beginning_end`,
`middle_start..middle_end`, `ending_start..n`. -/
def structureCover (n : Int) : List Int :=
  let st := calculate_story_structure n
  intRange 1 st.beginning_end ++ intRange st.middle_start st.middle_end
    ++ intRange st.ending_start n

/-! ## `generation/__init__.py`: `find_characters_in_page`

`find_characters_in_page` is imported by `generation/__init__.py` and
exercised by `tests/test_generation/test_prompts.py`, but its definition
is absent from the source tree (the `prompts.py` present defines neither
it nor `build_illustration_prompt_simple`).  It is therefore modelled
from the spec below. -/

/-- A word character for the purpose of word boundaries (the alphanumeric
class of the regex `\b` boundary). -/
def isWordChar (c : Char) : Bool :=
  c.isAlphanum

/-- Modelled from the spec: whole-word, case-insensitive occurrence of
`name` in `text` — both strings are lower-cased and `name` must occur at
a position whose neighbouring characters (when they exist) are not word
characters. -/
def wholeWordMatch (name text : String) : Bool :=
  let nm := name.toList.map Char.toLower
  let tx := text.toList.map Char.toLower
  ¬ nm.isEmpty ∧ (List.range (tx.length + 1)).any (fun i =>
    ((tx.drop i).take nm.length == nm)
    ∧ (i == 0 ∨ ¬ isWordChar (tx.getD (i - 1) ' '))
    ∧ (i + nm.length == tx.length ∨ ¬ isWordChar (tx.getD (i + nm.length) ' ')))

/-- Modelled from the spec: `find_characters_in_page`, missing from
`src` (only its import in `generation/__init__.py` and its tests exist).
It identifies which known characters — given as
`(name, description, visual_traits)` triples — are mentioned in the
page text using whole-word, case-insensitive matching, and returns the
matching triples with their traits as a plain list. -/
def find_characters_in_page (text : String)
    (characters : List (String × String × List String)) :
    List (String × String × List String) :=
  characters.filter (fun c => wholeWordMatch c.1 text)

/-! ## Shared concrete values used by witnesses and counterexamples -/

/-- `Path("/etc/passwd.png")`. -/
def etcPasswd : PyPath := ⟨true, ["etc", "passwd.png"]⟩

/-- A benign relative output path. -/
def demoOutPath : PyPath := ⟨false, ["image.png"]⟩

/-- An environment in which the platform and mflux checks pass, loading
succeeds, and no concurrent `cancel()` call lands. -/
def envAllOk : GenEnv := ⟨true, "OK", true, "OK", true, "", false, false⟩

/-- `envAllOk` with a `cancel()` call landing between the flag reset at
the top of `generate` and the post-load flag check. -/
def envCancelInWindow : GenEnv := ⟨true, "OK", true, "OK", true, "", true, false⟩

/-- A page used by concrete witnesses. -/
def demoPage : Page := ⟨1, "Once upon a time.", "", none⟩

/-- A character used by concrete witnesses. -/
def demoChar : Character := ⟨"Luna", "a mouse", ["small"]⟩

/-- A one-page story used by concrete witnesses. -/
def demoStory : Story :=
  ⟨⟨"T", "A", "5-8", 0, 0, "storybook_classic"⟩, [], [demoPage], [], none⟩

/-! ## Claim C2: `ImageConfig` validation -/

/-- C2: `ImageConfig` construction succeeds exactly when the model is one
of the two named variants, `quantize` is 4 or 8, and `steps` lies in
`2..8` for `schnell` and in `15..30` for `dev`; any successful
construction stores exactly the given field values, and every violating
combination yields an error instead of a config value. -/
theorem imageConfig_validation_spec (model : String)
    (quantize steps width height : Int) (seed : Option Int) :
    ((∃ c, mkImageConfig model quantize steps width height seed = Except.ok c)
      ↔ ((model = "schnell" ∨ model = "dev")
        ∧ (quantize = 4 ∨ quantize = 8)
        ∧ (model = "schnell" → 2 ≤ steps ∧ steps ≤ 8)
        ∧ (model = "dev" → 15 ≤ steps ∧ steps ≤ 30)))
    ∧ (∀ c, mkImageConfig model quantize steps width height seed = Except.ok c →
        c = ⟨model, quantize, steps, width, height, seed⟩) := by
  unfold mkImageConfig
  split_ifs with h1 h2 h3 h4 <;> push_neg at * <;>
    constructor <;> simp_all

/-- Witness for C2 at a concrete valid and value-checking input. -/
theorem imageConfig_validation_spec_witness :
    (∃ c, mkImageConfig "dev" 8 20 1024 1024 none = Except.ok c)
    ∧ ((⟨"dev", 8, 20, 1024, 1024, none⟩ : ImageConfig)
        = ⟨"dev", 8, 20, 1024, 1024, none⟩) := by
  refine ⟨(imageConfig_validation_spec "dev" 8 20 1024 1024 none).1.mpr
    (by decide), ?_⟩
  exact (imageConfig_validation_spec "dev" 8 20 1024 1024 none).2 _ rfl

/-! ## Claim C7: `calculate_story_structure` partitions `1..n` -/

/-- C7 counterexample: at `page_count = 1` the three ranges cover page 1
twice (`beginning` is `1..1` and `ending` is `1..1`), so they do not
partition `1..1`. -/
theorem calc_structure_overlap_at_one :
    structureCover 1 = [1, 1] ∧ structureCover 1 ≠ intRange 1 1 := by
  decide

/-- Concatenation of adjacent inclusive integer ranges. -/
theorem intRange_append (a b c : Int) (h1 : a ≤ b + 1) (h2 : b ≤ c) :
    intRange a b ++ intRange (b + 1) c = intRange a c := by
  unfold intRange
  have hmk : (c + 1 - a).toNat = (b + 1 - a).toNat + (c - b).toNat := by omega
  rw [show c + 1 - (b + 1) = c - b from by ring, hmk, List.range_add,
    List.map_append, List.map_map]
  congr 1
  apply List.map_congr_left
  intro i _
  simp only [Function.comp_apply, Int.ofNat_eq_coe]
  push_cast
  omega

/-- C7 amended: for every page count `n ≥ 2`,
`calculate_story_structure n` partitions `1..n`: the concatenation of
the beginning, middle and ending ranges is exactly the list `1..n`
(at `n = 1` the beginning and ending ranges overlap on page 1). -/
theorem calc_structure_partition (n : Int) (h : 2 ≤ n) :
    structureCover n = intRange 1 n := by
  unfold structureCover calculate_story_structure
  split_ifs with h4 h8
  · have e1 : intRange 1 1 ++ intRange 2 (n - 1) = intRange 1 (n - 1) := by
      have := intRange_append 1 1 (n - 1) (by omega) (by omega)
      norm_num at this
      exact this
    have e2 : intRange 1 (n - 1) ++ intRange n n = intRange 1 n := by
      have := intRange_append 1 (n - 1) n (by omega) (by omega)
      rw [show n - 1 + 1 = n from by ring] at this
      exact this
    simp only []
    rw [e1, e2]
  · have e1 : intRange 1 2 ++ intRange 3 (n - 2) = intRange 1 (n - 2) := by
      have := intRange_append 1 2 (n - 2) (by omega) (by omega)
      norm_num at this
      exact this
    have e2 : intRange 1 (n - 2) ++ intRange (n - 1) n = intRange 1 n := by
      have := intRange_append 1 (n - 2) n (by omega) (by omega)
      rw [show n - 2 + 1 = n - 1 from by ring] at this
      exact this
    simp only []
    rw [e1, e2]
  · have e1 : intRange 1 (n / 4) ++ intRange (n / 4 + 1) (n - n / 4 + 1 - 1)
        = intRange 1 (n - n / 4) := by
      have := intRange_append 1 (n / 4) (n - n / 4) (by omega) (by omega)
      rw [show n - n / 4 + 1 - 1 = n - n / 4 from by ring]
      exact this
    have e2 : intRange 1 (n - n / 4) ++ intRange (n - n / 4 + 1) n
        = intRange 1 n := by
      exact intRange_append 1 (n - n / 4) n (by omega) (by omega)
    simp only []
    rw [e1, e2]

/-- Witness for C7 at `n = 9`. -/
theorem calc_structure_partition_witness :
    (2 : Int) ≤ 9 ∧ structureCover 9 = intRange 1 9 :=
  ⟨by decide, calc_structure_partition 9 (by decide)⟩

/-! ## Claim C9: enumerated `target_age` / `style` -/

/-- C9 counterexample: `create_story` accepts a `target_age` and a
`style` outside the enumerated sets, and the resulting metadata carries
them verbatim — no constructor validates membership. -/
theorem create_story_accepts_invalid_enum :
    (create_story "T" "" "1-99" "oil_paint" 0).metadata.target_age = "1-99"
    ∧ "1-99" ∉ TARGET_AGE_RANGES
    ∧ (create_story "T" "" "1-99" "oil_paint" 0).metadata.style = "oil_paint"
    ∧ "oil_paint" ∉ ILLUSTRATION_STYLES := by
  decide

/-- C9 amended: the constants `TARGET_AGE_RANGES` and
`ILLUSTRATION_STYLES` enumerate the intended values and the default
`target_age` and `style` belong to them, but `create_story` and the
metadata update operations store whatever strings the caller supplies
without validating membership. -/
theorem storyMetadata_enums_advisory :
    ("5-8" ∈ TARGET_AGE_RANGES ∧ "storybook_classic" ∈ ILLUSTRATION_STYLES)
    ∧ (∀ title author target_age style now,
        (create_story title author target_age style now).metadata.target_age
            = target_age
        ∧ (create_story title author target_age style now).metadata.style
            = style)
    ∧ (∀ s u now,
        (Story.with_metadata s u now).metadata.target_age
            = u.target_age.getD s.metadata.target_age
        ∧ (Story.with_metadata s u now).metadata.style
            = u.style.getD s.metadata.style) := by
  refine ⟨by decide, fun _ _ _ _ _ => ⟨rfl, rfl⟩, fun _ _ _ => ⟨rfl, rfl⟩⟩

/-! ## Claim C6: `find_characters_in_page` (modelled from the spec) -/

/-- C6: whole-word, case-insensitive character matching — "Art" is found
standalone (also when the text changes case) but not inside "Arthur" or
"party"; matched characters are returned verbatim, traits included, and
the result is always a selection of the given character list. -/
theorem find_characters_whole_word_spec :
    (find_characters_in_page "Art painted a beautiful picture."
        [("Art", "a painter", ["artistic"])]
      = [("Art", "a painter", ["artistic"])])
    ∧ (find_characters_in_page "Arthur went to the castle."
        [("Art", "a painter", ["artistic"])] = [])
    ∧ (find_characters_in_page "They had a party."
        [("Art", "a painter", ["artistic"])] = [])
    ∧ (find_characters_in_page "ART painted a beautiful picture."
        [("Art", "a painter", ["artistic"])]
      = [("Art", "a painter", ["artistic"])])
    ∧ (find_characters_in_page "Luna explored."
        [("Luna", "a mouse", ["small", "brown", "curious"])]
      = [("Luna", "a mouse", ["small", "brown", "curious"])])
    ∧ (∀ text chars, List.Sublist (find_characters_in_page text chars) chars) := by
  refine ⟨by decide, by decide, by decide, by decide, by decide, ?_⟩
  intro text chars
  exact List.filter_sublist chars

/-! ## Claim C1: no system-directory validation in `generate` -/

/-- C1 (code bug evaluation): with the platform and mflux checks passing
and the model loaded, `generate` with output path `/etc/passwd.png`
invokes the backend, saves to `/etc/passwd.png`, and returns success with
no error — the source contains no reserved-system-directory validation,
although `tests/test_generation/test_image.py` and the spec require a
"system directory" failure with no write. -/
theorem generate_writes_to_system_directory :
    (ImageGenerator.generate ⟨defaultImageConfig, true, false⟩ envAllOk
        "test" etcPasswd 12345).backendInvoked = true
    ∧ (ImageGenerator.generate ⟨defaultImageConfig, true, false⟩ envAllOk
        "test" etcPasswd 12345).savedPath = some etcPasswd
    ∧ (ImageGenerator.generate ⟨defaultImageConfig, true, false⟩ envAllOk
        "test" etcPasswd 12345).result.success = true
    ∧ (ImageGenerator.generate ⟨defaultImageConfig, true, false⟩ envAllOk
        "test" etcPasswd 12345).result.error = none := by
  decide

/-! ## Claim C8: cancellation before generation -/

/-- C8 counterexample: a `cancel()` issued before `generate` is called is
erased by the flag reset at the top of `generate` — the backend is still
invoked and the run succeeds instead of returning a cancelled failure. -/
theorem cancel_before_generate_cleared :
    (ImageGenerator.generate
        (ImageGenerator.cancel ⟨defaultImageConfig, true, false⟩) envAllOk
        "test" demoOutPath 99).backendInvoked = true
    ∧ (ImageGenerator.generate
        (ImageGenerator.cancel ⟨defaultImageConfig, true, false⟩) envAllOk
        "test" demoOutPath 99).result.success = true := by
  decide

/-- C8 amended: `generate` clears any previously requested cancellation
at entry (its outcome does not depend on the incoming flag); only a
cancellation that arrives after `generate` has begun and before the
post-load checkpoint makes it return the cancelled failure result without
invoking the backend. -/
theorem generate_cancel_checkpoint (g : GeneratorState) (env : GenEnv)
    (prompt : String) (path : PyPath) (t : Int)
    (hp : env.platformOk = true) (hm : env.mfluxOk = true)
    (hl : env.loadOk = true) (hc : env.cancelBeforeCheck = true) :
    (ImageGenerator.generate g env prompt path t).backendInvoked = false
    ∧ (ImageGenerator.generate g env prompt path t).result
        = ⟨false, none, some "Generation cancelled", none⟩
    ∧ (∀ b, ImageGenerator.generate { g with cancelRequested := b }
        env prompt path t = ImageGenerator.generate g env prompt path t) := by
  refine ⟨?_, ?_, fun b => rfl⟩ <;>
    simp [ImageGenerator.generate, ImageGenerator.cancel, hp, hm, hl, hc]

/-- Witness for C8 at a concrete state and environment. -/
theorem generate_cancel_checkpoint_witness :
    (ImageGenerator.generate ⟨defaultImageConfig, false, false⟩
        envCancelInWindow "p" demoOutPath 5).backendInvoked = false
    ∧ (ImageGenerator.generate ⟨defaultImageConfig, false, false⟩
        envCancelInWindow "p" demoOutPath 5).result
        = ⟨false, none, some "Generation cancelled", none⟩ := by
  have h := generate_cancel_checkpoint ⟨defaultImageConfig, false, false⟩
    envCancelInWindow "p" demoOutPath 5 rfl rfl rfl rfl
  exact ⟨h.1, h.2.1⟩

/-! ## Claim C3: serialization round-trip -/

/-- How a reload resolves a saved illustration path: only its base name
is stored, and it is re-rooted at `projectPath/pages`; a base name that
is the empty string (as for `Path("/")`) is falsy in the Python guard
and is dropped to `None`. -/
def reResolvePath (projectPath : PyPath) (q : Option PyPath) : Option PyPath :=
  match q with
  | some q => if q.name = "" then none
              else some ((projectPath.join "pages").join q.name)
  | none => none

/-- `Path("/")`: absolute root, whose `name` is the empty string. -/
def rootPath : PyPath := ⟨true, []⟩

/-- A concrete project directory. -/
def demoProject : PyPath := ⟨true, ["home", "user", "proj"]⟩

/-- A story with one page whose illustration path is `Path("/")`. -/
def rootIllustrated : Story :=
  ⟨⟨"T", "", "5-8", 0, 0, "storybook_classic"⟩, [],
    [⟨1, "x", "", some rootPath⟩], [], none⟩

/-- C3 counterexample: a page whose `illustration_path` is set to
`Path("/")` (base name empty) does not round-trip to
`p/pages/<basename>` — serialization stores the empty base name, whose
falsiness on load drops the path to `None`. -/
theorem roundtrip_drops_empty_basename :
    rootIllustrated.pages.map Page.illustration_path = [some rootPath]
    ∧ (dict_to_story (story_to_dict rootIllustrated)
        (some demoProject)).pages.map Page.illustration_path = [none]
    ∧ some ((demoProject.join "pages").join rootPath.name)
        ≠ (none : Option PyPath) := by
  decide

/-- C3 amended: for every story `s` and path `p`, the round trip through
`story_to_dict` and `dict_to_story` with project path `p` reproduces the
title, the author, the characters (names, descriptions and traits), and
the pages with equal texts and illustration prompts, each set
illustration path with a nonempty base name becoming
`p/pages/<original basename>` (a set path with an empty base name is
dropped to `None`); the loaded story has project path `p`. -/
theorem story_dict_roundtrip (s : Story) (p : PyPath) :
    (dict_to_story (story_to_dict s) (some p)).metadata.title
        = s.metadata.title
    ∧ (dict_to_story (story_to_dict s) (some p)).metadata.author
        = s.metadata.author
    ∧ (dict_to_story (story_to_dict s) (some p)).characters = s.characters
    ∧ (dict_to_story (story_to_dict s) (some p)).pages
        = s.pages.map (fun pg =>
            { pg with illustration_path := reResolvePath p pg.illustration_path })
    ∧ (dict_to_story (story_to_dict s) (some p)).project_path = some p := by
  refine ⟨rfl, rfl, ?_, ?_, rfl⟩
  · show (s.characters.map characterToDict).map dictToCharacter = s.characters
    rw [List.map_map]
    exact List.map_id s.characters
  · show (s.pages.map pageToDict).map
        (fun d => dictToPage d (some (p.join "pages")))
      = s.pages.map (fun pg =>
        { pg with illustration_path := reResolvePath p pg.illustration_path })
    rw [List.map_map]
    apply List.map_congr_left
    intro pg _
    obtain ⟨pn, tx, pr, ip⟩ := pg
    cases ip <;>
      simp [Function.comp_apply, dictToPage, pageToDict, reResolvePath]

/-! ## Claim C5: `update_page` -/

/-- C5: `update_page` fails with the not-found `ValueError` message
exactly when no page carries the requested number (the original story is
a pure value and is untouched); when some page matches, it returns the
story with the given fields replaced on every matching page and
`modified_at` freshly stamped, all other fields unchanged. -/
theorem update_page_spec (s : Story) (n : Int) (u : PageUpdates)
    (now : DateTime) :
    ((∀ p ∈ s.pages, p.page_number ≠ n) →
      update_page s n u now = Except.error s!"Page {n} not found in story")
    ∧ ((∃ p ∈ s.pages, p.page_number = n) →
      update_page s n u now = Except.ok
        { s with
          pages := s.pages.map
            (fun p => if p.page_number = n then p.with_updates u else p)
          metadata := { s.metadata with modified_at := now } }) := by
  constructor
  · intro hnone
    have hany : s.pages.any (fun p => p.page_number == n) = false := by
      simp only [List.any_eq_false, beq_iff_eq]
      exact hnone
    simp [update_page, hany]
  · rintro ⟨p, hp, hpn⟩
    have hany : s.pages.any (fun p => p.page_number == n) = true := by
      simp only [List.any_eq_true, beq_iff_eq]
      exact ⟨p, hp, hpn⟩
    simp only [update_page, hany, if_true]
    rfl

/-- Witness for C5: failing and succeeding calls on a concrete story. -/
theorem update_page_spec_witness :
    update_page demoStory 99 {} 5 = Except.error "Page 99 not found in story"
    ∧ update_page demoStory 1 {} 5 = Except.ok
        { demoStory with
          pages := demoStory.pages.map
            (fun p => if p.page_number = 1 then p.with_updates {} else p)
          metadata := { demoStory.metadata with modified_at := 5 } } := by
  constructor
  · exact (update_page_spec demoStory 99 {} 5).1 (by decide)
  · exact (update_page_spec demoStory 1 {} 5).2 ⟨demoPage, by decide, by decide⟩

/-! ## Claim C10: frame conditions of the mutating operations -/

/-- The fields every content-mutating operation must leave unchanged:
creation time, title, author, target age, style, the conversation, and
the project path. -/
def framePreserved (s t : Story) : Prop :=
  t.metadata.created_at = s.metadata.created_at
  ∧ t.metadata.title = s.metadata.title
  ∧ t.metadata.author = s.metadata.author
  ∧ t.metadata.target_age = s.metadata.target_age
  ∧ t.metadata.style = s.metadata.style
  ∧ t.conversation = s.conversation
  ∧ t.project_path = s.project_path

/-- C10: each of the six content-mutating story operations preserves
`created_at`, title, author, target age, style, the conversation and the
project path, and also the collection it does not operate on (pages for
the character operations, characters for the page operations); only the
operated-on collection and `modified_at` can change. -/
theorem story_ops_frame (s : Story) (c : Character) (nm : String)
    (pg : Page) (n : Int) (u : PageUpdates) (now : DateTime) :
    (framePreserved s (add_character s c now)
      ∧ (add_character s c now).pages = s.pages)
    ∧ (framePreserved s (remove_character s nm now)
      ∧ (remove_character s nm now).pages = s.pages)
    ∧ (framePreserved s (add_page s pg now)
      ∧ (add_page s pg now).characters = s.characters)
    ∧ (∀ t, update_page s n u now = Except.ok t →
        framePreserved s t ∧ t.characters = s.characters)
    ∧ (framePreserved s (remove_page s n now)
      ∧ (remove_page s n now).characters = s.characters)
    ∧ (framePreserved s (renumber_pages s now)
      ∧ (renumber_pages s now).characters = s.characters) := by
  refine ⟨⟨⟨rfl, rfl, rfl, rfl, rfl, rfl, rfl⟩, rfl⟩,
    ⟨⟨rfl, rfl, rfl, rfl, rfl, rfl, rfl⟩, rfl⟩,
    ⟨⟨rfl, rfl, rfl, rfl, rfl, rfl, rfl⟩, rfl⟩, ?_,
    ⟨⟨rfl, rfl, rfl, rfl, rfl, rfl, rfl⟩, rfl⟩,
    ⟨⟨rfl, rfl, rfl, rfl, rfl, rfl, rfl⟩, rfl⟩⟩
  intro t h
  unfold update_page at h
  split at h
  · cases h
    exact ⟨⟨rfl, rfl, rfl, rfl, rfl, rfl, rfl⟩, rfl⟩
  · exact absurd h (by simp)

/-- Witness for C10 on a concrete story, including a successful
`update_page` call. -/
theorem story_ops_frame_witness :
    framePreserved demoStory (add_character demoStory demoChar 7)
    ∧ framePreserved demoStory
        { demoStory with
          pages := demoStory.pages.map
            (fun p => if p.page_number = 1 then p.with_updates {} else p)
          metadata := { demoStory.metadata with modified_at := 7 } } := by
  have h := story_ops_frame demoStory demoChar "x" demoPage 1 {} 7
  exact ⟨h.1.1, (h.2.2.2.1 _ rfl).1⟩

/-! ## Claim C4: `add_page` keeps pages sorted, stably -/

/-- `pageLE` is transitive. -/
theorem pageLE_trans (a b c : Page) (h1 : pageLE a b = true)
    (h2 : pageLE b c = true) : pageLE a c = true := by
  simp only [pageLE, decide_eq_true_eq] at *
  omega

/-- `pageLE` is total. -/
theorem pageLE_total (a b : Page) : (pageLE a b || pageLE b a) = true := by
  simp only [pageLE, Bool.or_eq_true, decide_eq_true_eq]
  omega

/-- Stability of the sort used by `add_page`, phrased through filtering:
the pages carrying any one page number appear in the sorted list exactly
as they appeared in the input. -/
theorem filter_key_mergeSort (l : List Page) (k : Int) :
    (l.mergeSort pageLE).filter (fun q => q.page_number == k)
      = l.filter (fun q => q.page_number == k) := by
  have hc_mem : ∀ q ∈ l.filter (fun q => q.page_number == k),
      q.page_number = k := by
    intro q hq
    have := List.of_mem_filter hq
    simpa using this
  have hpair : List.Pairwise (fun a b => pageLE a b = true)
      (l.filter (fun q => q.page_number == k)) := by
    apply List.pairwise_of_forall_mem_list
    intro a ha b hb
    simp [pageLE, hc_mem a ha, hc_mem b hb]
  have h1 := List.sublist_mergeSort pageLE_trans pageLE_total hpair
    (List.filter_sublist l)
  have h2 : (l.filter (fun q => q.page_number == k)).Sublist
      ((l.mergeSort pageLE).filter (fun q => q.page_number == k)) := by
    have h3 := List.Sublist.filter (fun q => q.page_number == k) h1
    rwa [List.filter_eq_self.mpr (fun a ha => (List.mem_filter.mp ha).2)] at h3
  have hlen : ((l.mergeSort pageLE).filter
        (fun q => q.page_number == k)).length
      = (l.filter (fun q => q.page_number == k)).length :=
    ((List.mergeSort_perm l pageLE).filter _).length_eq
  exact (h2.eq_of_length hlen.symm).symm

/-- A sequence of `add_page` calls, applied in order. -/
def applyAddPages (s : Story) (calls : List (Page × DateTime)) : Story :=
  calls.foldl (fun st pc => add_page st pc.1 pc.2) s

/-- Pages sorted ascending by `page_number` (non-strict: duplicates
allowed). -/
def pagesSorted (l : List Page) : Prop :=
  List.Pairwise (fun a b => a.page_number ≤ b.page_number) l

/-- C4: starting from a story with pages sorted ascending, any sequence
of `add_page` calls (covering every intermediate story, since the calls
list is arbitrary) leaves the pages sorted ascending; every call adds its
page (duplicate numbers are never rejected), and for each page number the
pages carrying it are the original ones followed by the inserted ones in
insertion order. -/
theorem add_page_seq_spec (s : Story) (calls : List (Page × DateTime))
    (h : pagesSorted s.pages) :
    pagesSorted (applyAddPages s calls).pages
    ∧ (applyAddPages s calls).pages.length
        = s.pages.length + calls.length
    ∧ ∀ k : Int,
        (applyAddPages s calls).pages.filter (fun q => q.page_number == k)
          = s.pages.filter (fun q => q.page_number == k)
            ++ (calls.map Prod.fst).filter (fun q => q.page_number == k) := by
  induction calls generalizing s with
  | nil =>
    exact ⟨h, by simp [applyAddPages], fun k => by simp [applyAddPages]⟩
  | cons pc rest ih =>
    have hstep : applyAddPages s (pc :: rest)
        = applyAddPages (add_page s pc.1 pc.2) rest := rfl
    have hpages : (add_page s pc.1 pc.2).pages
        = (s.pages ++ [pc.1]).mergeSort pageLE := rfl
    have hs2 : pagesSorted (add_page s pc.1 pc.2).pages := by
      rw [hpages]
      exact (List.sorted_mergeSort pageLE_trans pageLE_total _).imp
        (by intro a b hab; simpa [pageLE] using hab)
    obtain ⟨ih1, ih2, ih3⟩ := ih (add_page s pc.1 pc.2) hs2
    refine ⟨hstep ▸ ih1, ?_, ?_⟩
    · rw [hstep, ih2, hpages, List.length_mergeSort, List.length_append]
      simp only [List.length_cons, List.length_nil]
      omega
    · intro k
      rw [hstep, ih3 k, hpages, filter_key_mergeSort, List.filter_append,
        List.append_assoc, List.map_cons]
      by_cases hb : (pc.1.page_number == k) = true
      · simp [List.filter_cons, List.filter_nil, hb]
      · simp [List.filter_cons, List.filter_nil, hb]

/-- Two pages inserted by the C4 witness: a duplicate of page 1, then a
page 0. -/
def demoCalls : List (Page × DateTime) :=
  [(⟨1, "dup", "", none⟩, 3), (⟨0, "front", "", none⟩, 4)]

/-- Witness for C4 on a concrete story, inserting a duplicate page
number and an out-of-order page. -/
theorem add_page_seq_spec_witness :
    pagesSorted demoStory.pages
    ∧ pagesSorted (applyAddPages demoStory demoCalls).pages
    ∧ (applyAddPages demoStory demoCalls).pages.length
        = demoStory.pages.length + demoCalls.length
    ∧ (applyAddPages demoStory demoCalls).pages.filter
          (fun q => q.page_number == 1)
        = demoStory.pages.filter (fun q => q.page_number == 1)
          ++ (demoCalls.map Prod.fst).filter (fun q => q.page_number == 1) := by
  have h := add_page_seq_spec demoStory demoCalls
    (by unfold pagesSorted; decide)
  exact ⟨by unfold pagesSorted; decide, h.1, h.2.1, h.2.2 1⟩

end Storyteller
